import Mathlib

/-!
# Verification of the waste-collection backend (src/index.js)

A shallow embedding of the Express/Mongoose backend in `src/index.js`.
JSON request-body values are modelled by `JSVal` (with JavaScript
truthiness and numeric/date coercion); the Mongo document store is a
`DB` record holding the two persistent lists (`log` users and
`storeCollection` collection requests) plus an optional injected store
fault modelling a rejected store operation, which each route handler
catches in its `catch` block exactly as the source does.

External primitives (bcrypt hashing, JWT signing, the platform's
`Date`-string parser, Mongoose cast errors) are modelled by simple
computable stand-ins that preserve the control flow the source depends
on; no claim below relies on any deeper property of those primitives.
-/

namespace WasteBackend

/-- A JavaScript value as it can appear in a parsed JSON request body
(plus `undef` for an absent field and `nan` for a non-finite number). -/
inductive JSVal where
  | undef
  | null
  | str (s : String)
  | num (n : Int)
  | nan
  | bool (b : Bool)
  deriving DecidableEq, Repr

/-- JavaScript truthiness, as used by the `!field ||` checks on line 161:
`undefined`, `null`, `""`, `0`, `NaN` and `false` are falsy. -/
def truthy : JSVal → Bool
  | .undef => false
  | .null => false
  | .str s => s ≠ ""
  | .num n => n ≠ 0
  | .nan => false
  | .bool b => b

/-- Digit-only decimal string, the numeric-string form the model accepts. -/
def isDigits (s : String) : Bool := s ≠ "" && s.data.all (fun c => c.isDigit)

/-- Value of a digit-only decimal string. -/
def digitsToNat (s : String) : Nat :=
  s.data.foldl (fun a c => a * 10 + (c.toNat - 48)) 0

/-- JavaScript `Number(v)` coercion (line 177/178); `none` is `NaN`.
`Number(undefined)` is `NaN`, `Number(null)` is `0`, `Number("")` is `0`,
a numeric string parses, any other string is `NaN`. -/
def toNumber : JSVal → Option Int
  | .undef => none
  | .null => some 0
  | .str s =>
      if s = "" then some 0
      else if isDigits s then some (digitsToNat s) else none
  | .num n => some n
  | .nan => none
  | .bool b => some (if b then 1 else 0)

/-- JavaScript `new Date(v)` (line 176), as an epoch value; `none` is an
Invalid Date. String parsing is platform-defined; the model accepts
exactly the digit-only strings and rejects every other string. -/
def toDate : JSVal → Option Int
  | .undef => none
  | .null => some 0
  | .str s => if isDigits s then some (digitsToNat s) else none
  | .num n => some n
  | .nan => none
  | .bool b => some (if b then 1 else 0)

/-- Mongoose cast of a value to a required `String` schema path: `null`
and `undefined` fail the `required` check, `""` fails `required`,
numbers and booleans stringify. -/
def castString : JSVal → Option String
  | .undef => none
  | .null => none
  | .str s => if s = "" then none else some s
  | .num n => some (toString n)
  | .nan => some "NaN"
  | .bool b => some (toString b)

/-- A registered user document in the `log` collection (the `User`
model, lines 31-37): `_id` is the store-generated identifier, `password`
holds the bcrypt hash. -/
structure UserRec where
  _id : Nat
  name : String
  email : String
  password : String
  phone : String
  createdAt : Int
  deriving DecidableEq, Repr

/-- A stored collection-request document in the `storeCollection`
collection (the `Collection` model, lines 39-50), after Mongoose casting. -/
structure StoredCollection where
  userId : String
  userName : String
  wasteType : String
  location : String
  address : String
  dateTime : Int
  kilograms : Int
  rewardPoints : Int
  status : String
  createdAt : Int
  deriving DecidableEq, Repr

/-- The document store: the two persistent collections, plus an optional
fault; when `fault = some msg` every store operation rejects with an
error carrying message `msg`, which the route handlers catch. -/
structure DB where
  users : List UserRec
  collections : List StoredCollection
  fault : Option String
  deriving DecidableEq, Repr

/-- The JSON body of `POST /api/collections` as destructured on line
159; `status` and `createdAt` model extra caller-supplied fields, which
the handler never reads. -/
structure CollBody where
  userId : JSVal
  userName : JSVal
  wasteType : JSVal
  location : JSVal
  address : JSVal
  dateTime : JSVal
  kilograms : JSVal
  rewardPoints : JSVal
  status : JSVal
  createdAt : JSVal
  deriving DecidableEq, Repr

/-- The presence check of line 161: all seven required fields truthy
(`rewardPoints` is deliberately not checked). -/
def truthySeven (b : CollBody) : Bool :=
  truthy b.userId && truthy b.userName && truthy b.wasteType &&
  truthy b.location && truthy b.address && truthy b.dateTime &&
  truthy b.kilograms

/-- The Mongoose cast-and-validate step run by `collection.save()`
(line 183) on the document built on lines 170-181: the five string paths
must cast to non-empty strings, `dateTime` must be a valid date,
`kilograms` and `rewardPoints` must not be `NaN`. `status` is the
literal `"pending"` and `createdAt` is `new Date()` (the current time),
regardless of the body's own `status`/`createdAt` fields. -/
def castAll (now : Int) (b : CollBody) : Option StoredCollection := do
  let uid ← castString b.userId
  let uname ← castString b.userName
  let wt ← castString b.wasteType
  let loc ← castString b.location
  let addr ← castString b.address
  let dt ← toDate b.dateTime
  let kg ← toNumber b.kilograms
  let rp ← toNumber b.rewardPoints
  pure ⟨uid, uname, wt, loc, addr, dt, kg, rp, "pending", now⟩

/-- Message of the Mongoose `ValidationError` thrown by `save()` when a
cast fails (modelled as a fixed message naming the model). -/
def validationErrorMessage : String := "Collection validation failed"

/-- Response of `POST /api/collections`: `missingFields` is the 400 of
lines 162-166 (echoing the received body), `created` the 201 of lines
185-189 (echoing the stored document), `serverError` the 500 of lines
192-196 carrying the underlying error message. -/
inductive CollCreateRes where
  | missingFields (receivedData : CollBody)
  | created (collection : StoredCollection)
  | serverError (errMsg : String)
  deriving DecidableEq, Repr

/-- HTTP status of a `POST /api/collections` response. -/
def CollCreateRes.statusCode : CollCreateRes → Nat
  | .missingFields _ => 400
  | .created _ => 201
  | .serverError _ => 500

/-- `success` field of a `POST /api/collections` response. -/
def CollCreateRes.success : CollCreateRes → Bool
  | .missingFields _ => false
  | .created _ => true
  | .serverError _ => false

/-- `message` field of a `POST /api/collections` response. -/
def CollCreateRes.message : CollCreateRes → String
  | .missingFields _ => "Missing required fields"
  | .created _ => "Collection scheduled successfully"
  | .serverError m => "Server error: " ++ m

/-- Handler of `POST /api/collections` (lines 154-198): presence check
first; then `save()` runs the client-side cast/validate (failing with a
`ValidationError` even when the store is down), then the store write,
which rejects iff the store is faulted; every thrown error is caught and
becomes the 500 response. Returns the response and the store afterwards. -/
def createCollection (now : Int) (db : DB) (b : CollBody) : CollCreateRes × DB :=
  if truthySeven b then
    match castAll now b with
    | none => (.serverError validationErrorMessage, db)
    | some c =>
        match db.fault with
        | some m => (.serverError m, db)
        | none => (.created c, { db with collections := db.collections ++ [c] })
  else
    (.missingFields b, db)

/-- `GET /api/collections` (lines 200-208): `find().sort(createdAt: -1)`.
`ok` carries the sorted list; a store error becomes the 500 of line 206. -/
inductive CollListRes where
  | ok (collections : List StoredCollection)
  | serverError
  deriving DecidableEq, Repr

/-- HTTP status of a collection list response. -/
def CollListRes.statusCode : CollListRes → Nat
  | .ok _ => 200
  | .serverError => 500

/-- `success` field of a collection list response. -/
def CollListRes.success : CollListRes → Bool
  | .ok _ => true
  | .serverError => false

/-- `message` field of a collection list response (only the error path
carries one, the fixed "Server error"). -/
def CollListRes.message : CollListRes → Option String
  | .ok _ => none
  | .serverError => some "Server error"

/-- Descending-`createdAt` insertion of one document, placing it before
the first stored document whose `createdAt` is not larger: the model of
one step of the store's stable `sort({ createdAt: -1 })`. -/
def insertDesc (c : StoredCollection) : List StoredCollection → List StoredCollection
  | [] => [c]
  | x :: xs => if x.createdAt ≤ c.createdAt then c :: x :: xs else x :: insertDesc c xs

/-- The store's `sort({ createdAt: -1 })`: a stable sort of the stored
documents by creation timestamp, most recent first. -/
def sortDesc (l : List StoredCollection) : List StoredCollection :=
  l.foldr insertDesc []

/-- Handler of `GET /api/collections` (lines 200-208). -/
def getCollections (db : DB) : CollListRes :=
  match db.fault with
  | some _ => .serverError
  | none => .ok (sortDesc db.collections)

/-- Handler of `GET /api/collections/user/:userId` (lines 210-218):
`find({ userId }).sort({ createdAt: -1 })`, an exact-match filter on the
owning-user identifier followed by the same sort. -/
def getUserCollections (db : DB) (uid : String) : CollListRes :=
  match db.fault with
  | some _ => .serverError
  | none => .ok (sortDesc (db.collections.filter (fun c => c.userId == uid)))

/-- The bcrypt salted adaptive hash (`bcrypt.hash`, line 90), modelled
as an injective tagging of the plaintext; the random salt and the cost
factor are abstracted away. -/
def bcryptHash (pw : String) : String := "bcrypt10$" ++ pw

/-- `bcrypt.compare(pw, hash)` (line 129): verify a plaintext against a
stored hash. -/
def bcryptCompare (pw hash : String) : Bool := bcryptHash pw == hash

/-- `jwt.sign({ id: user._id }, "your_jwt_secret", { expiresIn: "1d" })`
(line 135), modelled as an opaque token derived from the identifier. -/
def jwtSign (id : Nat) : String := "jwt$" ++ toString id

/-- The public projection of a user returned by register (lines 105-110)
and login (lines 140-145): `_id`, `name`, `email`, `phone` only. -/
structure PublicUser where
  _id : Nat
  name : String
  email : String
  phone : String
  deriving DecidableEq, Repr

/-- Projection of a stored user to the register/login public view. -/
def publicView (u : UserRec) : PublicUser :=
  ⟨u._id, u.name, u.email, u.phone⟩

/-- One user as returned by `GET /api/users` with `.select("-password")`
(line 334): the whole document minus the `password` path. -/
structure UserListView where
  _id : Nat
  name : String
  email : String
  phone : String
  createdAt : Int
  deriving DecidableEq, Repr

/-- Projection of a stored user to the `-password` list view. -/
def listView (u : UserRec) : UserListView :=
  ⟨u._id, u.name, u.email, u.phone, u.createdAt⟩

/-- JSON body of `POST /api/auth/register` (line 80). -/
structure RegisterBody where
  name : String
  email : String
  password : String
  phone : String
  deriving DecidableEq, Repr

/-- Response of `POST /api/auth/register`: `duplicate` is the 400 of
line 85, `registered` the 201 of lines 102-111 carrying the public
view, `serverError` the 500 of line 114 with the fixed "Server error". -/
inductive RegisterRes where
  | duplicate
  | registered (user : PublicUser)
  | serverError
  deriving DecidableEq, Repr

/-- HTTP status of a register response. -/
def RegisterRes.statusCode : RegisterRes → Nat
  | .duplicate => 400
  | .registered _ => 201
  | .serverError => 500

/-- `success` field of a register response. -/
def RegisterRes.success : RegisterRes → Bool
  | .duplicate => false
  | .registered _ => true
  | .serverError => false

/-- `message` field of a register response. -/
def RegisterRes.message : RegisterRes → String
  | .duplicate => "User already exists"
  | .registered _ => "User registered successfully"
  | .serverError => "Server error"

/-- Handler of `POST /api/auth/register` (lines 78-116): look the email
up with `findOne` (which rejects on a store fault, caught as the 500);
if a user exists answer the 400; otherwise hash the password and save a
new document, whose `_id` the store generates (modelled as the current
number of user documents). Returns the response and the store afterwards. -/
def register (now : Int) (db : DB) (b : RegisterBody) : RegisterRes × DB :=
  match db.fault with
  | some _ => (.serverError, db)
  | none =>
      match db.users.find? (fun u => u.email == b.email) with
      | some _ => (.duplicate, db)
      | none =>
          let u : UserRec :=
            ⟨db.users.length, b.name, b.email, bcryptHash b.password, b.phone, now⟩
          (.registered (publicView u), { db with users := db.users ++ [u] })

/-- Response of `POST /api/auth/login`: `invalidCredentials` is the 400
returned both on line 125 (unknown email) and line 131 (wrong password),
`success` the 200 of lines 137-146 with token and public view,
`serverError` the 500 of line 149. -/
inductive LoginRes where
  | invalidCredentials
  | success (token : String) (user : PublicUser)
  | serverError
  deriving DecidableEq, Repr

/-- HTTP status of a login response. -/
def LoginRes.statusCode : LoginRes → Nat
  | .invalidCredentials => 400
  | .success _ _ => 200
  | .serverError => 500

/-- `success` field of a login response. -/
def LoginRes.successFlag : LoginRes → Bool
  | .invalidCredentials => false
  | .success _ _ => true
  | .serverError => false

/-- `message` field of a login response (the 200 carries none). -/
def LoginRes.message : LoginRes → Option String
  | .invalidCredentials => some "Invalid credentials"
  | .success _ _ => none
  | .serverError => some "Server error"

/-- Handler of `POST /api/auth/login` (lines 118-151): `findOne` by
email (store fault caught as the 500); absent user and failed
`bcrypt.compare` produce the same 400; otherwise sign a token and return
it with the public view. -/
def login (db : DB) (email password : String) : LoginRes :=
  match db.fault with
  | some _ => .serverError
  | none =>
      match db.users.find? (fun u => u.email == email) with
      | none => .invalidCredentials
      | some u =>
          if bcryptCompare password u.password then
            .success (jwtSign u._id) (publicView u)
          else
            .invalidCredentials

/-- Response of `GET /api/users` (lines 332-340). -/
inductive UserListRes where
  | ok (users : List UserListView)
  | serverError
  deriving DecidableEq, Repr

/-- `success` field of a user list response. -/
def UserListRes.success : UserListRes → Bool
  | .ok _ => true
  | .serverError => false

/-- `message` field of a user list response. -/
def UserListRes.message : UserListRes → Option String
  | .ok _ => none
  | .serverError => some "Server error"

/-- Handler of `GET /api/users` (lines 332-340): `find().select("-password")`. -/
def getUsers (db : DB) : UserListRes :=
  match db.fault with
  | some _ => .serverError
  | none => .ok (db.users.map listView)

/-- Substring test used to state that an error message surfaces the
underlying store message. -/
def strContains (hay needle : String) : Bool :=
  (List.range (hay.length + 1)).any (fun i => needle.data.isPrefixOf (hay.data.drop i))

/-! ## Sample inputs used by witness theorems -/

/-- A complete, well-formed collection request body; its `status` and
`createdAt` fields carry caller-supplied junk the handler must ignore. -/
def sampleBody : CollBody :=
  ⟨.str "u1", .str "Eyob", .str "Plastic", .str "Bole", .str "Addis",
   .str "20250101", .num 5, .num 10, .str "approved", .num 99⟩

/-- The stored document `sampleBody` produces at time 7. -/
def sampleStored : StoredCollection :=
  ⟨"u1", "Eyob", "Plastic", "Bole", "Addis", 20250101, 5, 10, "pending", 7⟩

/-- An empty, healthy store. -/
def emptyDB : DB := ⟨[], [], none⟩

/-- A store whose every operation rejects with message "boom". -/
def faultyDB : DB := ⟨[], [], some "boom"⟩

/-- A registered user with email `a@x.com` and password `p1`. -/
def sampleUser : UserRec := ⟨0, "A", "a@x.com", bcryptHash "p1", "1", 3⟩

/-- A healthy store holding exactly `sampleUser`. -/
def userDB : DB := ⟨[sampleUser], [], none⟩

/-- A registration body reusing `sampleUser`'s email. -/
def sampleReg : RegisterBody := ⟨"B", "a@x.com", "p2", "2"⟩

/-- Three stored collection requests for two users, inserted out of
timestamp order. -/
def threeCollections : List StoredCollection :=
  [⟨"u1", "n", "w", "l", "a", 0, 1, 1, "pending", 1⟩,
   ⟨"u2", "n", "w", "l", "a", 0, 1, 1, "pending", 5⟩,
   ⟨"u1", "n", "w", "l", "a", 0, 1, 1, "pending", 3⟩]

/-- A healthy store holding `threeCollections`. -/
def collDB : DB := ⟨[], threeCollections, none⟩

/-! ## Helper lemmas -/

theorem mem_insertDesc {b c : StoredCollection} {l : List StoredCollection}
    (h : b ∈ insertDesc c l) : b = c ∨ b ∈ l := by
  induction l with
  | nil => simpa [insertDesc] using h
  | cons x xs ih =>
      by_cases hx : x.createdAt ≤ c.createdAt
      · simp only [insertDesc, if_pos hx, List.mem_cons] at h
        rcases h with h | h
        · exact Or.inl h
        · exact Or.inr (List.mem_cons.mpr h)
      · simp only [insertDesc, if_neg hx, List.mem_cons] at h
        rcases h with h | h
        · exact Or.inr (by simp [h])
        · rcases ih h with h' | h'
          · exact Or.inl h'
          · exact Or.inr (by simp [h'])

theorem sorted_insertDesc (c : StoredCollection) (l : List StoredCollection)
    (h : l.Pairwise (fun a b => b.createdAt ≤ a.createdAt)) :
    (insertDesc c l).Pairwise (fun a b => b.createdAt ≤ a.createdAt) := by
  induction l with
  | nil => simp [insertDesc]
  | cons x xs ih =>
      rcases List.pairwise_cons.mp h with ⟨hx, hxs⟩
      by_cases hle : x.createdAt ≤ c.createdAt
      · simp only [insertDesc, if_pos hle]
        refine List.pairwise_cons.mpr ⟨?_, h⟩
        intro b hb
        rcases List.mem_cons.mp hb with rfl | hb
        · exact hle
        · exact le_trans (hx b hb) hle
      · simp only [insertDesc, if_neg hle]
        refine List.pairwise_cons.mpr ⟨?_, ih hxs⟩
        intro b hb
        rcases mem_insertDesc hb with rfl | hb
        · exact le_of_lt (lt_of_not_le hle)
        · exact hx b hb

theorem sorted_sortDesc (l : List StoredCollection) :
    (sortDesc l).Pairwise (fun a b => b.createdAt ≤ a.createdAt) := by
  induction l with
  | nil => simp [sortDesc]
  | cons x xs ih => exact sorted_insertDesc x (sortDesc xs) ih

theorem perm_insertDesc (c : StoredCollection) (l : List StoredCollection) :
    List.Perm (insertDesc c l) (c :: l) := by
  induction l with
  | nil => simp [insertDesc]
  | cons x xs ih =>
      by_cases hle : x.createdAt ≤ c.createdAt
      · simp [insertDesc, if_pos hle]
      · simp only [insertDesc, if_neg hle]
        exact (ih.cons x).trans (List.Perm.swap c x xs)

theorem perm_sortDesc (l : List StoredCollection) : List.Perm (sortDesc l) l := by
  induction l with
  | nil => simp [sortDesc]
  | cons x xs ih => exact (perm_insertDesc x (sortDesc xs)).trans (ih.cons x)

theorem insertDesc_all_le (c : StoredCollection) (l : List StoredCollection)
    (h : ∀ b ∈ l, b.createdAt ≤ c.createdAt) : insertDesc c l = c :: l := by
  cases l with
  | nil => rfl
  | cons x xs => simp [insertDesc, if_pos (h x (by simp))]

theorem filter_insertDesc (p : StoredCollection → Bool) (c : StoredCollection)
    (l : List StoredCollection)
    (hl : l.Pairwise (fun a b => b.createdAt ≤ a.createdAt)) (hc : p c = true) :
    (insertDesc c l).filter p = insertDesc c (l.filter p) := by
  induction l with
  | nil => simp [insertDesc, hc]
  | cons x xs ih =>
      rcases List.pairwise_cons.mp hl with ⟨hx, hxs⟩
      by_cases hle : x.createdAt ≤ c.createdAt
      · rw [insertDesc_all_le c (x :: xs) ?_]
        · rw [List.filter_cons_of_pos hc,
            insertDesc_all_le c ((x :: xs).filter p) ?_]
          intro b hb
          have hbmem : b ∈ x :: xs := List.mem_of_mem_filter hb
          rcases List.mem_cons.mp hbmem with rfl | hbmem
          · exact hle
          · exact le_trans (hx b hbmem) hle
        · intro b hb
          rcases List.mem_cons.mp hb with rfl | hb
          · exact hle
          · exact le_trans (hx b hb) hle
      · simp only [insertDesc, if_neg hle]
        by_cases hp : p x
        · rw [List.filter_cons_of_pos hp, List.filter_cons_of_pos hp,
            insertDesc, if_neg hle, ih hxs]
        · rw [List.filter_cons_of_neg (by simp [hp]),
            List.filter_cons_of_neg (by simp [hp]), ih hxs]

theorem filter_insertDesc_neg (p : StoredCollection → Bool) (c : StoredCollection)
    (l : List StoredCollection) (hc : p c = false) :
    (insertDesc c l).filter p = l.filter p := by
  induction l with
  | nil => simp [insertDesc, hc]
  | cons x xs ih =>
      by_cases hle : x.createdAt ≤ c.createdAt
      · simp [insertDesc, if_pos hle, hc]
      · by_cases hp : p x
        · simp only [insertDesc, if_neg hle]
          rw [List.filter_cons_of_pos hp, List.filter_cons_of_pos hp, ih]
        · simp only [insertDesc, if_neg hle]
          rw [List.filter_cons_of_neg (by simp [hp]),
            List.filter_cons_of_neg (by simp [hp]), ih]

theorem sortDesc_filter (p : StoredCollection → Bool) (l : List StoredCollection) :
    sortDesc (l.filter p) = (sortDesc l).filter p := by
  induction l with
  | nil => rfl
  | cons x xs ih =>
      by_cases hp : p x
      · rw [List.filter_cons_of_pos hp]
        show insertDesc x (sortDesc (xs.filter p)) = (insertDesc x (sortDesc xs)).filter p
        rw [ih, filter_insertDesc p x (sortDesc xs) (sorted_sortDesc xs) hp]
      · rw [List.filter_cons_of_neg (by simp [hp])]
        show sortDesc (xs.filter p) = (insertDesc x (sortDesc xs)).filter p
        rw [ih, filter_insertDesc_neg p x (sortDesc xs) (by simp [hp])]

theorem castString_some_of_truthy {v : JSVal} (h : truthy v = true) :
    ∃ s, castString v = some s := by
  cases v <;> simp_all [truthy, castString]

theorem truthySeven_parts {b : CollBody} (h : truthySeven b = true) :
    truthy b.userId = true ∧ truthy b.userName = true ∧ truthy b.wasteType = true ∧
    truthy b.location = true ∧ truthy b.address = true ∧ truthy b.dateTime = true ∧
    truthy b.kilograms = true := by
  simp only [truthySeven, Bool.and_eq_true] at h
  exact ⟨h.1.1.1.1.1.1, h.1.1.1.1.1.2, h.1.1.1.1.2, h.1.1.1.2, h.1.1.2, h.1.2, h.2⟩

theorem castAll_fields {now : Int} {b : CollBody} {c : StoredCollection}
    (h : castAll now b = some c) : c.status = "pending" ∧ c.createdAt = now := by
  simp only [castAll, Option.pure_def, Option.bind_eq_bind, Option.bind_eq_some,
    Option.some.injEq] at h
  obtain ⟨uid, _, uname, _, wt, _, loc, _, addr, _, dt, _, kg, _, rp, _, hc⟩ := h
  subst hc
  exact ⟨rfl, rfl⟩

theorem castAll_none_of_rewardPoints {now : Int} {b : CollBody}
    (h7 : truthySeven b = true) (hr : toNumber b.rewardPoints = none) :
    castAll now b = none := by
  obtain ⟨h1, h2, h3, h4, h5, _, _⟩ := truthySeven_parts h7
  obtain ⟨s1, hs1⟩ := castString_some_of_truthy h1
  obtain ⟨s2, hs2⟩ := castString_some_of_truthy h2
  obtain ⟨s3, hs3⟩ := castString_some_of_truthy h3
  obtain ⟨s4, hs4⟩ := castString_some_of_truthy h4
  obtain ⟨s5, hs5⟩ := castString_some_of_truthy h5
  rcases hdt : toDate b.dateTime with _ | dt <;>
  rcases hkg : toNumber b.kilograms with _ | kg <;>
  simp [castAll, hs1, hs2, hs3, hs4, hs5, hdt, hkg, hr]

theorem castAll_none_of_dateTime {now : Int} {b : CollBody}
    (h7 : truthySeven b = true) (hd : toDate b.dateTime = none) :
    castAll now b = none := by
  obtain ⟨h1, h2, h3, h4, h5, _, _⟩ := truthySeven_parts h7
  obtain ⟨s1, hs1⟩ := castString_some_of_truthy h1
  obtain ⟨s2, hs2⟩ := castString_some_of_truthy h2
  obtain ⟨s3, hs3⟩ := castString_some_of_truthy h3
  obtain ⟨s4, hs4⟩ := castString_some_of_truthy h4
  obtain ⟨s5, hs5⟩ := castString_some_of_truthy h5
  simp [castAll, hs1, hs2, hs3, hs4, hs5, hd]

theorem isPrefixOf_self (l : List Char) : l.isPrefixOf l = true := by
  induction l with
  | nil => rfl
  | cons c cs ih => simp [List.isPrefixOf, ih]

theorem strContains_append (pre m : String) : strContains (pre ++ m) m = true := by
  have hdata : (pre ++ m).data = pre.data ++ m.data := rfl
  have hlen : (pre ++ m).length = pre.length + m.length := by
    show (pre.data ++ m.data).length = pre.data.length + m.data.length
    exact List.length_append pre.data m.data
  simp only [strContains, List.any_eq_true]
  refine ⟨pre.length, ?_, ?_⟩
  · rw [List.mem_range, hlen]
    omega
  · rw [hdata]
    show m.data.isPrefixOf ((pre.data ++ m.data).drop pre.data.length) = true
    rw [List.drop_left]
    exact isPrefixOf_self m.data

/-! ## Claims -/

/-- C1: if any one of the seven required fields {userId, userName,
wasteType, location, address, dateTime, kilograms} is absent or falsy,
`POST /api/collections` answers the 400 MissingFields response echoing
the received payload, and the store is left untouched: no record is
constructed or persisted. -/
theorem missingFields_rejects_before_persist
    (now : Int) (db : DB) (b : CollBody)
    (h : truthy b.userId = false ∨ truthy b.userName = false ∨
         truthy b.wasteType = false ∨ truthy b.location = false ∨
         truthy b.address = false ∨ truthy b.dateTime = false ∨
         truthy b.kilograms = false) :
    createCollection now db b = (.missingFields b, db) ∧
    (CollCreateRes.missingFields b).statusCode = 400 ∧
    (CollCreateRes.missingFields b).success = false := by
  have h7 : truthySeven b = false := by
    rcases h with h | h | h | h | h | h | h <;> simp [truthySeven, h]
  exact ⟨by simp [createCollection, h7], rfl, rfl⟩

/-- Witness for C1: a request whose `kilograms` is the falsy number 0 is
rejected with the echoing 400 and the empty store stays empty. -/
theorem missingFields_rejects_before_persist_witness :
    createCollection 7 emptyDB { sampleBody with kilograms := .num 0 } =
      (.missingFields { sampleBody with kilograms := .num 0 }, emptyDB) ∧
    (CollCreateRes.missingFields { sampleBody with kilograms := .num 0 }).statusCode = 400 ∧
    (CollCreateRes.missingFields { sampleBody with kilograms := .num 0 }).success = false :=
  missingFields_rejects_before_persist 7 emptyDB _
    (Or.inr (Or.inr (Or.inr (Or.inr (Or.inr (Or.inr (by decide)))))))

/-- C2: a successful `POST /api/collections` stores and returns a record
whose `status` is `"pending"` and whose `createdAt` is the server's
current time, and the whole operation ignores any caller-supplied
`status` or `createdAt` field of the body. -/
theorem create_forces_pending_and_server_timestamp
    (now : Int) (db : DB) (b : CollBody) :
    (∀ s t : JSVal, truthySeven b = true →
        createCollection now db { b with status := s, createdAt := t } =
        createCollection now db b) ∧
    (∀ c db2, createCollection now db b = (.created c, db2) →
        c.status = "pending" ∧ c.createdAt = now ∧
        db2 = { db with collections := db.collections ++ [c] }) := by
  constructor
  · intro s t h7
    have h7' : truthySeven { b with status := s, createdAt := t } = true := h7
    unfold createCollection
    rw [if_pos h7', if_pos h7]
    rfl
  · intro c db2 h
    by_cases h7 : truthySeven b = true
    · rcases hca : castAll now b with _ | c'
      · simp [createCollection, h7, hca] at h
      · rcases hf : db.fault with _ | m
        · simp only [createCollection, if_pos h7, hca, hf, Prod.mk.injEq,
            CollCreateRes.created.injEq] at h
          obtain ⟨rfl, rfl⟩ := h
          obtain ⟨hst, hts⟩ := castAll_fields hca
          exact ⟨hst, hts, rfl⟩
        · simp [createCollection, h7, hca, hf] at h
    · simp [createCollection, h7] at h

/-- Witness for C2: `sampleBody` (whose caller `status` is `"approved"`
and caller `createdAt` is 99) is stored at time 7 as a `"pending"`
record timestamped 7. -/
theorem create_forces_pending_and_server_timestamp_witness :
    createCollection 7 emptyDB { sampleBody with status := .str "done", createdAt := .num 1 } =
      createCollection 7 emptyDB sampleBody ∧
    sampleStored.status = "pending" ∧ sampleStored.createdAt = 7 ∧
    ({ emptyDB with collections := emptyDB.collections ++ [sampleStored] } : DB) =
      { emptyDB with collections := emptyDB.collections ++ [sampleStored] } :=
  ⟨(create_forces_pending_and_server_timestamp 7 emptyDB sampleBody).1
      (.str "done") (.num 1) rfl,
   (create_forces_pending_and_server_timestamp 7 emptyDB sampleBody).2
      sampleStored { emptyDB with collections := emptyDB.collections ++ [sampleStored] }
      rfl⟩

/-- C3: registering an email already present in the credential store
answers the 400 DuplicateIdentity response and leaves the stored user
records unchanged. -/
theorem duplicate_email_register_rejected
    (now : Int) (db : DB) (b : RegisterBody) (hf : db.fault = none)
    (h : ∃ u ∈ db.users, u.email = b.email) :
    register now db b = (.duplicate, db) ∧
    (register now db b).2.users = db.users ∧
    RegisterRes.duplicate.statusCode = 400 ∧
    RegisterRes.duplicate.message = "User already exists" := by
  have hfind : (db.users.find? (fun u => u.email == b.email)).isSome := by
    rw [List.find?_isSome]
    obtain ⟨u, hu, he⟩ := h
    exact ⟨u, hu, by simp [he]⟩
  rcases hfs : db.users.find? (fun u => u.email == b.email) with _ | u
  · rw [hfs] at hfind
    simp at hfind
  · exact ⟨by simp [register, hf, hfs], by simp [register, hf, hfs], rfl, rfl⟩

/-- Witness for C3: re-registering `a@x.com` against the store that
already holds `sampleUser` is rejected and the store keeps exactly its
one user record. -/
theorem duplicate_email_register_rejected_witness :
    register 5 userDB sampleReg = (.duplicate, userDB) ∧
    (register 5 userDB sampleReg).2.users = userDB.users ∧
    RegisterRes.duplicate.statusCode = 400 ∧
    RegisterRes.duplicate.message = "User already exists" :=
  duplicate_email_register_rejected 5 userDB sampleReg rfl
    ⟨sampleUser, by simp [userDB], rfl⟩

/-- C4: no successful register, login or list-users response carries the
password or its hash: the register response is exactly the
{id, name, email, phone} view (identical whatever password is supplied),
the login response is the same view plus the token, and list-users
responses are unchanged when every stored password hash is erased. -/
theorem responses_exclude_password
    (now : Int) (db : DB) (b : RegisterBody) (e p q : String)
    (hf : db.fault = none) :
    (register now db b).1 = (register now db { b with password := q }).1 ∧
    (∀ u db2, register now db b = (.registered u, db2) →
        u = ⟨db.users.length, b.name, b.email, b.phone⟩) ∧
    (∀ u, db.users.find? (fun v => v.email == e) = some u →
        bcryptCompare p u.password = true →
        login db e p = .success (jwtSign u._id) ⟨u._id, u.name, u.email, u.phone⟩) ∧
    getUsers db = getUsers { db with users := db.users.map (fun u => { u with password := "" }) } := by
  refine ⟨?_, ?_, ?_, ?_⟩
  · rcases hfs : db.users.find? (fun u => u.email == b.email) with _ | u <;>
      simp [register, hf, hfs, publicView]
  · intro u db2 h
    rcases hfs : db.users.find? (fun v => v.email == b.email) with _ | v
    · simp only [register, hf, hfs] at h
      have h1 := congrArg Prod.fst h
      simp only [RegisterRes.registered.injEq] at h1
      exact h1.symm
    · simp [register, hf, hfs] at h
  · intro u hfind hcmp
    simp [login, hf, hfind, hcmp, publicView]
  · simp only [getUsers, hf]
    rw [List.map_map]
    rfl

/-- Witness for C4: logging `sampleUser` in with the right password
returns the token and the four-field public view only. -/
theorem responses_exclude_password_witness :
    login userDB "a@x.com" "p1" = .success (jwtSign 0) ⟨0, "A", "a@x.com", "1"⟩ :=
  (responses_exclude_password 3 userDB sampleReg "a@x.com" "p1" "zz" rfl).2.2.1
    sampleUser rfl rfl

/-- C5: the per-user listing returns exactly the stored records whose
`userId` equals the requested identifier, in the same relative order as
the full listing. -/
theorem list_by_user_filters_list_all
    (db : DB) (u : String) (all mine : List StoredCollection)
    (h1 : getCollections db = .ok all) (h2 : getUserCollections db u = .ok mine) :
    mine = all.filter (fun c => c.userId == u) := by
  rcases hf : db.fault with _ | m
  · simp only [getCollections, hf, CollListRes.ok.injEq] at h1
    simp only [getUserCollections, hf, CollListRes.ok.injEq] at h2
    rw [← h1, ← h2, sortDesc_filter]
  · simp [getCollections, hf] at h1

/-- Witness for C5: on the three-record store, the `u1` listing is the
filter of the full sorted listing. -/
theorem list_by_user_filters_list_all_witness :
    sortDesc (threeCollections.filter (fun c => c.userId == "u1")) =
      (sortDesc threeCollections).filter (fun c => c.userId == "u1") :=
  list_by_user_filters_list_all collDB "u1" (sortDesc threeCollections)
    (sortDesc (threeCollections.filter (fun c => c.userId == "u1"))) rfl rfl

/-- C6: the full listing returns all stored records, ordered by
creation timestamp most recent first (non-increasing `createdAt`). -/
theorem list_all_sorted_and_complete (db : DB) (l : List StoredCollection)
    (h : getCollections db = .ok l) :
    l.Pairwise (fun a b => b.createdAt ≤ a.createdAt) ∧ List.Perm l db.collections := by
  rcases hf : db.fault with _ | m
  · simp only [getCollections, hf, CollListRes.ok.injEq] at h
    subst h
    exact ⟨sorted_sortDesc _, perm_sortDesc _⟩
  · simp [getCollections, hf] at h

/-- Witness for C6: the listing of the out-of-order three-record store
is sorted and is a permutation of the stored records. -/
theorem list_all_sorted_and_complete_witness :
    (sortDesc threeCollections).Pairwise (fun a b => b.createdAt ≤ a.createdAt) ∧
    List.Perm (sortDesc threeCollections) threeCollections :=
  list_all_sorted_and_complete collDB (sortDesc threeCollections) rfl

/-- C7: a login failing on an unknown email and a login failing on a
wrong password produce identical responses (same InvalidCredentials
body, same 400 status), so the caller cannot tell which field was wrong. -/
theorem login_failures_indistinguishable
    (db1 db2 : DB) (e1 p1 e2 p2 : String) (u : UserRec)
    (hf1 : db1.fault = none) (hf2 : db2.fault = none)
    (h1 : db1.users.find? (fun v => v.email == e1) = none)
    (h2 : db2.users.find? (fun v => v.email == e2) = some u)
    (h3 : bcryptCompare p2 u.password = false) :
    login db1 e1 p1 = login db2 e2 p2 ∧
    login db1 e1 p1 = .invalidCredentials ∧
    LoginRes.invalidCredentials.statusCode = 400 ∧
    LoginRes.invalidCredentials.message = some "Invalid credentials" := by
  have l1 : login db1 e1 p1 = .invalidCredentials := by simp [login, hf1, h1]
  have l2 : login db2 e2 p2 = .invalidCredentials := by simp [login, hf2, h2, h3]
  exact ⟨l1.trans l2.symm, l1, rfl, rfl⟩

/-- Witness for C7: an unknown email against the empty store and a wrong
password for `sampleUser` give the very same response. -/
theorem login_failures_indistinguishable_witness :
    login emptyDB "n@x.com" "p" = login userDB "a@x.com" "bad" ∧
    login emptyDB "n@x.com" "p" = .invalidCredentials ∧
    LoginRes.invalidCredentials.statusCode = 400 ∧
    LoginRes.invalidCredentials.message = some "Invalid credentials" :=
  login_failures_indistinguishable emptyDB userDB "n@x.com" "p" "a@x.com" "bad"
    sampleUser rfl rfl rfl rfl rfl

/-- C8 counterexample: with every store operation rejecting with message
"boom", the register catch answers the fixed "Server error", which does
not include the underlying store message — refuting the claim that every
operation's PersistenceFailure message includes it. -/
theorem persistence_message_not_included_counterexample :
    faultyDB.fault = some "boom" ∧
    (register 0 faultyDB sampleReg).1 = .serverError ∧
    (register 0 faultyDB sampleReg).1.success = false ∧
    strContains (register 0 faultyDB sampleReg).1.message "boom" = false :=
  ⟨rfl, rfl, rfl, rfl⟩

/-- C8 amended: when the store raises, every operation catches the error
and answers a success-false 500 envelope; only collection creation's
message includes the underlying store error message ("Server error: " +
message), while register, login, both collection listings and the user
listing answer the fixed message "Server error". -/
theorem store_errors_uniformly_caught
    (now : Int) (db : DB) (m : String) (b : RegisterBody) (e p uid : String)
    (cb : CollBody) (c : StoredCollection)
    (hf : db.fault = some m) (h7 : truthySeven cb = true)
    (hc : castAll now cb = some c) :
    (register now db b).1 = .serverError ∧
    RegisterRes.serverError.statusCode = 500 ∧
    RegisterRes.serverError.success = false ∧
    RegisterRes.serverError.message = "Server error" ∧
    login db e p = .serverError ∧
    LoginRes.serverError.statusCode = 500 ∧
    LoginRes.serverError.message = some "Server error" ∧
    getCollections db = .serverError ∧
    getUserCollections db uid = .serverError ∧
    getUsers db = .serverError ∧
    createCollection now db cb = (.serverError m, db) ∧
    (CollCreateRes.serverError m).statusCode = 500 ∧
    (CollCreateRes.serverError m).success = false ∧
    strContains ((CollCreateRes.serverError m).message) m = true := by
  refine ⟨?_, rfl, rfl, rfl, ?_, rfl, rfl, ?_, ?_, ?_, ?_, rfl, rfl, ?_⟩
  · simp [register, hf]
  · simp [login, hf]
  · simp [getCollections, hf]
  · simp [getUserCollections, hf]
  · simp [getUsers, hf]
  · simp [createCollection, h7, hc, hf]
  · exact strContains_append "Server error: " m

/-- Witness for the amended C8: the "boom" store makes every operation
answer its 500 envelope, and collection creation's message carries
"boom". -/
theorem store_errors_uniformly_caught_witness :
    (register 7 faultyDB sampleReg).1 = .serverError ∧
    RegisterRes.serverError.statusCode = 500 ∧
    RegisterRes.serverError.success = false ∧
    RegisterRes.serverError.message = "Server error" ∧
    login faultyDB "a@x.com" "p1" = .serverError ∧
    LoginRes.serverError.statusCode = 500 ∧
    LoginRes.serverError.message = some "Server error" ∧
    getCollections faultyDB = .serverError ∧
    getUserCollections faultyDB "u1" = .serverError ∧
    getUsers faultyDB = .serverError ∧
    createCollection 7 faultyDB sampleBody = (.serverError "boom", faultyDB) ∧
    (CollCreateRes.serverError "boom").statusCode = 500 ∧
    (CollCreateRes.serverError "boom").success = false ∧
    strContains ((CollCreateRes.serverError "boom").message) "boom" = true :=
  store_errors_uniformly_caught 7 faultyDB "boom" sampleReg "a@x.com" "p1" "u1"
    sampleBody sampleStored rfl rfl rfl

/-- C9: when the seven required fields are present and truthy but
`rewardPoints` is absent or non-numeric, the request is not rejected as
MissingFields; the `Number` coercion yields `NaN` and the failure
surfaces as the downstream 500 persistence/validation error. -/
theorem reward_points_only_coerced
    (now : Int) (db : DB) (b : CollBody)
    (h7 : truthySeven b = true) (hr : toNumber b.rewardPoints = none)
    (_hf : db.fault = none) :
    createCollection now db b = (.serverError validationErrorMessage, db) ∧
    (CollCreateRes.serverError validationErrorMessage).statusCode = 500 ∧
    (∀ r, CollCreateRes.serverError validationErrorMessage ≠ .missingFields r) := by
  have hca : castAll now b = none := castAll_none_of_rewardPoints h7 hr
  exact ⟨by simp [createCollection, h7, hca], rfl,
    fun r h => CollCreateRes.noConfusion h⟩

/-- Witness for C9: a complete request whose `rewardPoints` is the
non-numeric string "abc" draws the 500, not the MissingFields 400. -/
theorem reward_points_only_coerced_witness :
    createCollection 7 emptyDB { sampleBody with rewardPoints := .str "abc" } =
      (.serverError validationErrorMessage, emptyDB) ∧
    (CollCreateRes.serverError validationErrorMessage).statusCode = 500 ∧
    (∀ r, CollCreateRes.serverError validationErrorMessage ≠ .missingFields r) :=
  reward_points_only_coerced 7 emptyDB { sampleBody with rewardPoints := .str "abc" }
    rfl rfl rfl

/-- C10: a present, non-empty `dateTime` string that does not parse as a
date passes the presence check (no MissingFields); it is coerced to an
invalid temporal value and the failure surfaces only as the 500
persistence-layer error. -/
theorem unparseable_datetime_passes_presence
    (now : Int) (db : DB) (b : CollBody) (s : String)
    (hdt : b.dateTime = .str s) (hne : s ≠ "") (hp : isDigits s = false)
    (h6 : truthy b.userId = true ∧ truthy b.userName = true ∧
          truthy b.wasteType = true ∧ truthy b.location = true ∧
          truthy b.address = true ∧ truthy b.kilograms = true)
    (_hf : db.fault = none) :
    truthySeven b = true ∧
    toDate b.dateTime = none ∧
    createCollection now db b = (.serverError validationErrorMessage, db) := by
  obtain ⟨h1, h2, h3, h4, h5, h7k⟩ := h6
  have htd : truthy b.dateTime = true := by
    rw [hdt]
    simp [truthy, hne]
  have h7 : truthySeven b = true := by
    simp [truthySeven, h1, h2, h3, h4, h5, htd, h7k]
  have hd : toDate b.dateTime = none := by
    rw [hdt]
    simp [toDate, hp]
  have hca : castAll now b = none := castAll_none_of_dateTime h7 hd
  exact ⟨h7, hd, by simp [createCollection, h7, hca]⟩

/-- Witness for C10: a complete request whose `dateTime` is the
unparseable string "tomorrow" passes the presence check and draws the
500. -/
theorem unparseable_datetime_passes_presence_witness :
    truthySeven { sampleBody with dateTime := .str "tomorrow" } = true ∧
    toDate ({ sampleBody with dateTime := .str "tomorrow" } : CollBody).dateTime = none ∧
    createCollection 7 emptyDB { sampleBody with dateTime := .str "tomorrow" } =
      (.serverError validationErrorMessage, emptyDB) :=
  unparseable_datetime_passes_presence 7 emptyDB
    { sampleBody with dateTime := .str "tomorrow" } "tomorrow" rfl
    (by decide) rfl ⟨rfl, rfl, rfl, rfl, rfl, rfl⟩ rfl

end WasteBackend
